import Mathlib

/-!
Shallow embedding of `src/wgpu/src/triangle.rs` (the triangle mesh drawing
pipeline of the iced wgpu renderer): the growable GPU buffer, the pipeline
construction, and the per-frame `draw` batching algorithm, together with
theorems settling the specification claims.

Modelling conventions:
* machine floats (`f32`) are modelled as rationals (`ℚ`);
* GPU allocations are modelled by a device allocation counter (`Device`):
  each `create_buffer` returns a fresh allocation id;
* the command encoder / render pass is modelled as a list of `Command`
  events emitted in recording order.
-/

/-- Size in bytes of `Vertex2D` (#[repr(C)] { position: [f32; 2], color: [f32; 4] }): 24. -/
def sizeOfVertex2D : Nat := 24

/-- Size in bytes of `u32`: 4. -/
def sizeOfU32 : Nat := 4

/-- Size in bytes of `Uniforms` (#[repr(C)] { transform: [f32; 16] }): 64. -/
def sizeOfUniforms : Nat := 64

/-- `const UNIFORM_BUFFER_SIZE: usize = 100;` -/
def UNIFORM_BUFFER_SIZE : Nat := 100

/-- `const VERTEX_BUFFER_SIZE: usize = 100_000;` -/
def VERTEX_BUFFER_SIZE : Nat := 100000

/-- `const INDEX_BUFFER_SIZE: usize = 100_000;` -/
def INDEX_BUFFER_SIZE : Nat := 100000

/-- A two-dimensional vertex with a linear RGBA color (`Vertex2D`). -/
structure Vertex2D where
  position : ℚ × ℚ
  color : ℚ × ℚ × ℚ × ℚ
deriving DecidableEq, Repr

/-- A set of vertices and indices representing triangles (`Mesh2D`).
Indices are `u32` in the source, modelled as `Nat`. -/
structure Mesh2D where
  vertices : List Vertex2D
  indices : List Nat
deriving DecidableEq, Repr

/-- `iced_native::Point` (an `f32` point, modelled over `ℚ`). -/
structure Point where
  x : ℚ
  y : ℚ
deriving DecidableEq, Repr

/-- `Rectangle<u32>`: the integer clip rectangle used as a scissor test. -/
structure Rect where
  x : Nat
  y : Nat
  width : Nat
  height : Nat
deriving DecidableEq, Repr

/-- `crate::Transformation`: a 4x4 matrix over the scalar field
(an `f32` matrix in the source, modelled over `ℚ`). -/
abbrev Transformation := Matrix (Fin 4) (Fin 4) ℚ

/-- Modelled from the spec: `Transformation::identity()` (the crate root's
`Transformation` type is outside `src/`); the identity 4x4 matrix. -/
def Transformation.matIdentity : Transformation := 1

/-- Modelled from the spec: `Transformation::translate(x, y)` (the crate
root's `Transformation` type is outside `src/`); the homogeneous 4x4
translation matrix with the x/y offsets in the last column. -/
def Transformation.translate (x y : ℚ) : Transformation :=
  Matrix.of fun i j =>
    if i = j then 1
    else if i.val = 0 ∧ j.val = 3 then x
    else if i.val = 1 ∧ j.val = 3 then y
    else 0

/-- `Uniforms`: one 4x4 transform per draw item. -/
structure Uniforms where
  transform : Transformation

/-- The buffer usage flag sets appearing in `triangle.rs`. -/
inductive BufferUsage where
  | uniformCopyDst
  | vertexCopyDst
  | indexCopyDst
  | copySrc
deriving DecidableEq, Repr

/-- The GPU device, modelled as an allocation counter handing out fresh
buffer allocation ids. -/
abbrev Device := Nat

/-- `device.create_buffer(&BufferDescriptor { size, usage })`: returns a
fresh allocation id and the advanced device counter. -/
def Device.create_buffer (d : Device) (_byteSize : Nat) : Nat × Device :=
  (d, d + 1)

/-- `Buffer<T>`: a typed growable GPU buffer. `elemSize` stands for the
phantom type parameter's `std::mem::size_of::<T>()`; `raw` is the current
backing allocation id; `size` is the element capacity. -/
structure Buffer where
  elemSize : Nat
  raw : Nat
  size : Nat
  usage : BufferUsage
deriving DecidableEq, Repr

/-- `Buffer::new(device, size, usage)`. -/
def Buffer.new (elemSize : Nat) (device : Device) (size : Nat)
    (usage : BufferUsage) : Buffer × Device :=
  let (raw, device) := Device.create_buffer device (elemSize * size)
  ({ elemSize := elemSize, raw := raw, size := size, usage := usage }, device)

/-- `Buffer::ensure_capacity(&mut self, device, size)`: reallocate to exactly
`size` elements when the current capacity is smaller, otherwise do nothing. -/
def Buffer.ensure_capacity (self : Buffer) (device : Device) (size : Nat) :
    Buffer × Device :=
  if self.size < size then
    let (raw, device) := Device.create_buffer device (self.elemSize * size)
    ({ self with raw := raw, size := size }, device)
  else
    (self, device)

theorem ensure_capacity_size (b : Buffer) (d : Device) (n : Nat) :
    (b.ensure_capacity d n).1.size = max b.size n := by
  unfold Buffer.ensure_capacity Device.create_buffer
  by_cases h : b.size < n
  · simp [h, Nat.max_eq_right (Nat.le_of_lt h)]
  · simp [h, Nat.max_eq_left (Nat.le_of_not_lt h)]

theorem ensure_capacity_noop (b : Buffer) (d : Device) (n : Nat)
    (h : n ≤ b.size) : b.ensure_capacity d n = (b, d) := by
  unfold Buffer.ensure_capacity
  simp [Nat.not_lt.mpr h]

theorem ensure_capacity_size_le (b : Buffer) (d : Device) (n : Nat) :
    b.size ≤ (b.ensure_capacity d n).1.size := by
  rw [ensure_capacity_size]; exact Nat.le_max_left _ _

theorem ensure_capacity_fields (b : Buffer) (d : Device) (n : Nat) :
    (b.ensure_capacity d n).1.elemSize = b.elemSize ∧
    (b.ensure_capacity d n).1.usage = b.usage := by
  unfold Buffer.ensure_capacity Device.create_buffer
  by_cases h : b.size < n <;> simp [h]

/-- Folding a sequence of `ensure_capacity` requests over a buffer. -/
def ensureFold (bd : Buffer × Device) : List Nat → Buffer × Device
  | [] => bd
  | n :: rest => ensureFold (bd.1.ensure_capacity bd.2 n) rest

theorem ensureFold_size_le (ns : List Nat) :
    ∀ bd : Buffer × Device, bd.1.size ≤ (ensureFold bd ns).1.size := by
  induction ns with
  | nil => intro bd; exact Nat.le_refl _
  | cons n rest ih =>
      intro bd
      calc bd.1.size ≤ (bd.1.ensure_capacity bd.2 n).1.size :=
            ensure_capacity_size_le _ _ _
        _ ≤ (ensureFold (bd.1.ensure_capacity bd.2 n) rest).1.size := ih _

/-- A render target / texture view tag: the caller-supplied target, or the
resolver's offscreen multisampled attachment / resolve target. -/
inductive AttachmentKind where
  | callerTarget
  | blitOffscreen
  | blitResolve
deriving DecidableEq, Repr

/-- `wgpu::LoadOp` for the color attachment. -/
inductive LoadOp where
  | clear
  | load
deriving DecidableEq, Repr

/-- A texture color format (opaque to this core). -/
inductive TextureFormat where
  | bgra8UnormSrgb
deriving DecidableEq, Repr

/-- Modelled from the spec: `settings::Antialiasing` (outside `src/`); an
antialiasing configuration carrying its sample count (`Some(4)` maps to
sample count 4). -/
structure Antialiasing where
  sample_count : Nat
deriving DecidableEq, Repr

/-- Modelled from the spec: `msaa::Blit` (the `msaa` module is outside
`src/`); the external resolver created for a format and an antialiasing
configuration. -/
structure Blit where
  format : TextureFormat
  antialiasing : Antialiasing
deriving DecidableEq, Repr

/-- Modelled from the spec: `msaa::Blit::new(device, format, antialiasing)`. -/
def Blit.new (_device : Device) (format : TextureFormat)
    (antialiasing : Antialiasing) : Blit :=
  { format := format, antialiasing := antialiasing }

/-- Modelled from the spec: `blit.targets(device, width, height)` supplies
the offscreen multisampled attachment and the resolve target. -/
def Blit.targets (_self : Blit) (_device : Device)
    (_target_width _target_height : Nat) : AttachmentKind × AttachmentKind :=
  (AttachmentKind.blitOffscreen, AttachmentKind.blitResolve)

/-- `wgpu::RenderPipeline`: the fixed pipeline configuration; only the
fields the claims mention are carried (target format and sample count). -/
structure RenderPipeline where
  format : TextureFormat
  sample_count : Nat
deriving DecidableEq, Repr

/-- `wgpu::BindGroup`: the constants bind group, holding the buffer
allocation id it was created over and the byte range end
(`0..size_of::<Uniforms>()`). -/
structure BindGroup where
  buffer : Nat
  rangeEnd : Nat
deriving DecidableEq, Repr

/-- One recorded encoder / render pass event, in recording order. -/
inductive Command where
  | copyBufferToBuffer (src : Nat) (srcOffset : Nat) (dst : Nat)
      (dstOffset : Nat) (byteCount : Nat)
  | beginRenderPass (attachment : AttachmentKind)
      (resolve_target : Option AttachmentKind) (load_op : LoadOp)
  | setPipeline (pipeline : RenderPipeline)
  | setBindGroup (group : BindGroup) (dynamicOffset : Nat)
  | setIndexBuffer (buffer : Nat) (offset : Nat)
  | setVertexBuffer (buffer : Nat) (offset : Nat)
  | setScissorRect (x y width height : Nat)
  | drawIndexed (indexCount : Nat) (baseVertex : Nat) (instanceCount : Nat)
  | blitDraw
deriving Repr

/-- The `Pipeline` struct of `triangle.rs`. -/
structure Pipeline where
  pipeline : RenderPipeline
  blit : Option Blit
  constants : BindGroup
  uniforms_buffer : Buffer
  vertex_buffer : Buffer
  index_buffer : Buffer

/-- `Pipeline::new(device, format, antialiasing)`: create the uniforms
buffer (capacity `UNIFORM_BUFFER_SIZE`), the constants bind group over byte
range `0..size_of::<Uniforms>()` of that buffer, the render pipeline with
sample count `antialiasing.map(|a| a.sample_count()).unwrap_or(1)`, the
optional blit resolver, and the vertex/index buffers. -/
def Pipeline.new (device : Device) (format : TextureFormat)
    (antialiasing : Option Antialiasing) : Pipeline × Device :=
  let (constants_buffer, device) :=
    Buffer.new sizeOfUniforms device UNIFORM_BUFFER_SIZE
      BufferUsage.uniformCopyDst
  let constant_bind_group : BindGroup :=
    { buffer := constants_buffer.raw, rangeEnd := sizeOfUniforms }
  let pipeline : RenderPipeline :=
    { format := format,
      sample_count := (antialiasing.map Antialiasing.sample_count).getD 1 }
  let (vertex_buffer, device) :=
    Buffer.new sizeOfVertex2D device VERTEX_BUFFER_SIZE
      BufferUsage.vertexCopyDst
  let (index_buffer, device) :=
    Buffer.new sizeOfU32 device INDEX_BUFFER_SIZE BufferUsage.indexCopyDst
  ({ pipeline := pipeline,
     blit := antialiasing.map fun a => Blit.new device format a,
     constants := constant_bind_group,
     uniforms_buffer := constants_buffer,
     vertex_buffer := vertex_buffer,
     index_buffer := index_buffer }, device)

/-- The state produced by the upload loop of `Pipeline::draw`
(lines 226-272): final device counter, emitted copy commands, the
accumulated `uniforms` and `offsets` vectors, and the final
`last_vertex` / `last_index` running counts. -/
structure LoopOut where
  device : Device
  cmds : List Command
  uniforms : List Uniforms
  offsets : List (Nat × Nat × Nat)
  last_vertex : Nat
  last_index : Nat

/-- The upload loop of `Pipeline::draw`: for each `(origin, mesh)` pair in
order, build the per-item `Uniforms` entry
(`transformation * translate(origin.x, origin.y)`), stage the vertex and
index data into fresh COPY_SRC buffers, and schedule copies into the
persistent buffers at destination offsets `last_vertex` / `last_index`
(NOTE: the source passes the raw element counts as the byte offsets), then
record `(last_vertex, last_index, mesh.indices.len())` and advance the
running counts. -/
def uploadLoop (transformation : Transformation) (vbRaw ibRaw : Nat)
    (device : Device) (last_vertex last_index : Nat) :
    List (Point × Mesh2D) → LoopOut
  | [] =>
    { device := device, cmds := [], uniforms := [], offsets := [],
      last_vertex := last_vertex, last_index := last_index }
  | (origin, mesh) :: rest =>
    let transform : Uniforms :=
      { transform := transformation * Transformation.translate origin.x origin.y }
    let (vertex_buffer, device) :=
      Device.create_buffer device (sizeOfVertex2D * mesh.vertices.length)
    let (index_buffer, device) :=
      Device.create_buffer device (sizeOfU32 * mesh.indices.length)
    let c1 := Command.copyBufferToBuffer vertex_buffer 0 vbRaw last_vertex
      (sizeOfVertex2D * mesh.vertices.length)
    let c2 := Command.copyBufferToBuffer index_buffer 0 ibRaw last_index
      (sizeOfU32 * mesh.indices.length)
    let out := uploadLoop transformation vbRaw ibRaw device
      (last_vertex + mesh.vertices.length) (last_index + mesh.indices.length)
      rest
    { device := out.device,
      cmds := c1 :: c2 :: out.cmds,
      uniforms := transform :: out.uniforms,
      offsets := (last_vertex, last_index, mesh.indices.length) :: out.offsets,
      last_vertex := out.last_vertex,
      last_index := out.last_index }

/-- The render pass loop of `Pipeline::draw` (lines 316-339): for the i-th
offset triple, set the pipeline, bind the constants group at dynamic offset
`size_of::<Uniforms>() * i`, bind the index and vertex buffers at the
recorded offsets, set the scissor rectangle and issue one indexed draw. -/
def renderLoop (pipeline : RenderPipeline) (constants : BindGroup)
    (vbRaw ibRaw : Nat) (bounds : Rect) (i : Nat) :
    List (Nat × Nat × Nat) → List Command
  | [] => []
  | (vertex_offset, index_offset, indices) :: rest =>
    Command.setPipeline pipeline ::
    Command.setBindGroup constants (sizeOfUniforms * i) ::
    Command.setIndexBuffer ibRaw index_offset ::
    Command.setVertexBuffer vbRaw vertex_offset ::
    Command.setScissorRect bounds.x bounds.y bounds.width bounds.height ::
    Command.drawIndexed indices 0 1 ::
    renderLoop pipeline constants vbRaw ibRaw bounds (i + 1) rest

/-- The result of `Pipeline::draw`: the mutated pipeline state, the advanced
device counter, and the recorded command stream. -/
structure DrawOut where
  pipeline : Pipeline
  device : Device
  cmds : List Command

/-- `Pipeline::draw`: count totals, grow the three buffers, upload all
vertex/index data and the combined uniforms array, then record one render
pass drawing every item, and finally invoke the blit resolver when present. -/
def Pipeline.draw (self : Pipeline) (device : Device)
    (target : AttachmentKind) (target_width target_height : Nat)
    (transformation : Transformation) (meshes : List (Point × Mesh2D))
    (bounds : Rect) : DrawOut :=
  let totals :=
    (meshes.map fun pm => (pm.2.vertices.length, pm.2.indices.length)).foldl
      (fun t vi => (t.1 + vi.1, t.2 + vi.2)) (0, 0)
  let ubD := self.uniforms_buffer.ensure_capacity device meshes.length
  let vbD := self.vertex_buffer.ensure_capacity ubD.2 totals.1
  let ibD := self.index_buffer.ensure_capacity vbD.2 totals.2
  let out := uploadLoop transformation vbD.1.raw ibD.1.raw ibD.2 0 0 meshes
  let stagingD :=
    Device.create_buffer out.device (sizeOfUniforms * out.uniforms.length)
  let uniformsCopy := Command.copyBufferToBuffer stagingD.1 0
    ubD.1.raw 0 (sizeOfUniforms * out.uniforms.length)
  let passBegin :=
    match self.blit with
    | some blit =>
      Command.beginRenderPass
        (blit.targets stagingD.2 target_width target_height).1
        (some (blit.targets stagingD.2 target_width target_height).2)
        LoadOp.clear
    | none => Command.beginRenderPass target none LoadOp.load
  let passCmds :=
    passBegin ::
    renderLoop self.pipeline self.constants vbD.1.raw
      ibD.1.raw bounds 0 out.offsets
  let blitCmds :=
    match self.blit with
    | some _blit => [Command.blitDraw]
    | none => []
  { pipeline :=
      { self with
        uniforms_buffer := ubD.1,
        vertex_buffer := vbD.1,
        index_buffer := ibD.1 },
    device := stagingD.2,
    cmds := out.cmds ++ uniformsCopy :: passCmds ++ blitCmds }

/-- Total vertex count of a mesh list. -/
def totalV (meshes : List (Point × Mesh2D)) : Nat :=
  (meshes.map fun pm => pm.2.vertices.length).sum

/-- Total index count of a mesh list. -/
def totalI (meshes : List (Point × Mesh2D)) : Nat :=
  (meshes.map fun pm => pm.2.indices.length).sum

/-- The offset triples the upload loop is expected to record, starting from
running counts `lv` / `li`: element-count prefix sums plus index count. -/
def offsetsSpec (lv li : Nat) : List (Point × Mesh2D) → List (Nat × Nat × Nat)
  | [] => []
  | (_, mesh) :: rest =>
    (lv, li, mesh.indices.length) ::
    offsetsSpec (lv + mesh.vertices.length) (li + mesh.indices.length) rest

/-- The `(destination, destinationOffset, byteCount)` triples of the copies
the upload loop schedules, alternating vertex copy then index copy per
item; the destination offsets are the raw element-count running totals
exactly as the source passes them. -/
def copiesSpec (vbRaw ibRaw lv li : Nat) :
    List (Point × Mesh2D) → List (Nat × Nat × Nat)
  | [] => []
  | (_, mesh) :: rest =>
    (vbRaw, lv, sizeOfVertex2D * mesh.vertices.length) ::
    (ibRaw, li, sizeOfU32 * mesh.indices.length) ::
    copiesSpec vbRaw ibRaw (lv + mesh.vertices.length)
      (li + mesh.indices.length) rest

/-- Extract the `(destination, destinationOffset, byteCount)` of every
buffer-to-buffer copy in a command stream, in order. -/
def copyOps (cs : List Command) : List (Nat × Nat × Nat) :=
  cs.filterMap fun c =>
    match c with
    | Command.copyBufferToBuffer _ _ dst dstOff n => some (dst, dstOff, n)
    | _ => none

/-- Extract the `(indexCount, baseVertex, instanceCount)` of every indexed
draw in a command stream, in order. -/
def drawCalls (cs : List Command) : List (Nat × Nat × Nat) :=
  cs.filterMap fun c =>
    match c with
    | Command.drawIndexed n b i => some (n, b, i)
    | _ => none

/-- Extract the `(group, dynamicOffset)` of every bind-group binding. -/
def bindGroupBinds (cs : List Command) : List (BindGroup × Nat) :=
  cs.filterMap fun c =>
    match c with
    | Command.setBindGroup g off => some (g, off)
    | _ => none

/-- Extract the `(buffer, offset)` of every index buffer binding. -/
def indexBinds (cs : List Command) : List (Nat × Nat) :=
  cs.filterMap fun c =>
    match c with
    | Command.setIndexBuffer b off => some (b, off)
    | _ => none

/-- Extract the `(buffer, offset)` of every vertex buffer binding. -/
def vertexBinds (cs : List Command) : List (Nat × Nat) :=
  cs.filterMap fun c =>
    match c with
    | Command.setVertexBuffer b off => some (b, off)
    | _ => none

/-- Extract the begin-render-pass events. -/
def passBegins (cs : List Command) :
    List (AttachmentKind × Option AttachmentKind × LoadOp) :=
  cs.filterMap fun c =>
    match c with
    | Command.beginRenderPass a r l => some (a, r, l)
    | _ => none

/-- Count the blit-resolver draw invocations. -/
def blitCount (cs : List Command) : Nat :=
  cs.countP fun c =>
    match c with
    | Command.blitDraw => true
    | _ => false

/-- The expected dynamic bind offsets for `n` draws starting at index `i`. -/
def bindOffsetsSpec (i : Nat) : Nat → List Nat
  | 0 => []
  | n + 1 => sizeOfUniforms * i :: bindOffsetsSpec (i + 1) n

theorem totals_foldl (meshes : List (Point × Mesh2D)) :
    ∀ a b : Nat,
      ((meshes.map fun pm => (pm.2.vertices.length, pm.2.indices.length)).foldl
        (fun t vi => (t.1 + vi.1, t.2 + vi.2)) (a, b)) =
      (a + totalV meshes, b + totalI meshes) := by
  induction meshes with
  | nil => intro a b; simp [totalV, totalI]
  | cons pm rest ih =>
      intro a b
      simp only [List.map_cons, List.foldl_cons, ih]
      simp [totalV, totalI]
      constructor <;> ring

theorem uploadLoop_uniforms (t : Transformation) (vb ib : Nat)
    (meshes : List (Point × Mesh2D)) :
    ∀ d lv li, (uploadLoop t vb ib d lv li meshes).uniforms =
      meshes.map fun pm =>
        { transform := t * Transformation.translate pm.1.x pm.1.y } := by
  induction meshes with
  | nil => intro d lv li; rfl
  | cons pm rest ih =>
      intro d lv li
      obtain ⟨origin, mesh⟩ := pm
      simp [uploadLoop, Device.create_buffer, ih]

theorem uploadLoop_offsets (t : Transformation) (vb ib : Nat)
    (meshes : List (Point × Mesh2D)) :
    ∀ d lv li, (uploadLoop t vb ib d lv li meshes).offsets =
      offsetsSpec lv li meshes := by
  induction meshes with
  | nil => intro d lv li; rfl
  | cons pm rest ih =>
      intro d lv li
      obtain ⟨origin, mesh⟩ := pm
      simp [uploadLoop, offsetsSpec, Device.create_buffer, ih]

theorem uploadLoop_last (t : Transformation) (vb ib : Nat)
    (meshes : List (Point × Mesh2D)) :
    ∀ d lv li, (uploadLoop t vb ib d lv li meshes).last_vertex =
        lv + totalV meshes ∧
      (uploadLoop t vb ib d lv li meshes).last_index = li + totalI meshes := by
  induction meshes with
  | nil => intro d lv li; simp [uploadLoop, totalV, totalI]
  | cons pm rest ih =>
      intro d lv li
      obtain ⟨origin, mesh⟩ := pm
      simp only [uploadLoop, Device.create_buffer]
      obtain ⟨ihv, ihi⟩ := ih (d + 1 + 1) (lv + mesh.vertices.length)
        (li + mesh.indices.length)
      refine ⟨?_, ?_⟩
      · rw [ihv]; simp [totalV]; ring
      · rw [ihi]; simp [totalI]; ring

theorem uploadLoop_copyOps (t : Transformation) (vb ib : Nat)
    (meshes : List (Point × Mesh2D)) :
    ∀ d lv li, copyOps (uploadLoop t vb ib d lv li meshes).cmds =
      copiesSpec vb ib lv li meshes := by
  induction meshes with
  | nil => intro d lv li; rfl
  | cons pm rest ih =>
      intro d lv li
      obtain ⟨origin, mesh⟩ := pm
      simp [uploadLoop, copiesSpec, copyOps, Device.create_buffer]
      exact ih _ _ _

theorem uploadLoop_no_draws (t : Transformation) (vb ib : Nat)
    (meshes : List (Point × Mesh2D)) :
    ∀ d lv li, drawCalls (uploadLoop t vb ib d lv li meshes).cmds = [] ∧
      bindGroupBinds (uploadLoop t vb ib d lv li meshes).cmds = [] ∧
      indexBinds (uploadLoop t vb ib d lv li meshes).cmds = [] ∧
      vertexBinds (uploadLoop t vb ib d lv li meshes).cmds = [] ∧
      passBegins (uploadLoop t vb ib d lv li meshes).cmds = [] ∧
      blitCount (uploadLoop t vb ib d lv li meshes).cmds = 0 := by
  induction meshes with
  | nil =>
      intro d lv li
      simp [uploadLoop, drawCalls, bindGroupBinds, indexBinds, vertexBinds,
        passBegins, blitCount]
  | cons pm rest ih =>
      intro d lv li
      obtain ⟨origin, mesh⟩ := pm
      simp only [uploadLoop, Device.create_buffer]
      obtain ⟨h1, h2, h3, h4, h5, h6⟩ := ih (d + 1 + 1)
        (lv + mesh.vertices.length) (li + mesh.indices.length)
      simp [drawCalls, bindGroupBinds, indexBinds, vertexBinds, passBegins,
        blitCount] at h1 h2 h3 h4 h5 h6 ⊢
      exact ⟨h1, h2, h3, h4, h5, h6⟩

theorem renderLoop_drawCalls (p : RenderPipeline) (c : BindGroup)
    (vb ib : Nat) (bounds : Rect) (offs : List (Nat × Nat × Nat)) :
    ∀ i, drawCalls (renderLoop p c vb ib bounds i offs) =
      offs.map fun o => (o.2.2, 0, 1) := by
  induction offs with
  | nil => intro i; rfl
  | cons o rest ih =>
      intro i
      obtain ⟨vo, io, n⟩ := o
      simp [renderLoop, drawCalls] at ih ⊢
      exact ih (i + 1)

theorem renderLoop_bindGroupBinds (p : RenderPipeline) (c : BindGroup)
    (vb ib : Nat) (bounds : Rect) (offs : List (Nat × Nat × Nat)) :
    ∀ i, bindGroupBinds (renderLoop p c vb ib bounds i offs) =
      (bindOffsetsSpec i offs.length).map fun off => (c, off) := by
  induction offs with
  | nil => intro i; rfl
  | cons o rest ih =>
      intro i
      obtain ⟨vo, io, n⟩ := o
      simp [renderLoop, bindGroupBinds, bindOffsetsSpec] at ih ⊢
      exact ih (i + 1)

theorem renderLoop_indexBinds (p : RenderPipeline) (c : BindGroup)
    (vb ib : Nat) (bounds : Rect) (offs : List (Nat × Nat × Nat)) :
    ∀ i, indexBinds (renderLoop p c vb ib bounds i offs) =
      offs.map fun o => (ib, o.2.1) := by
  induction offs with
  | nil => intro i; rfl
  | cons o rest ih =>
      intro i
      obtain ⟨vo, io, n⟩ := o
      simp [renderLoop, indexBinds] at ih ⊢
      exact ih (i + 1)

theorem renderLoop_vertexBinds (p : RenderPipeline) (c : BindGroup)
    (vb ib : Nat) (bounds : Rect) (offs : List (Nat × Nat × Nat)) :
    ∀ i, vertexBinds (renderLoop p c vb ib bounds i offs) =
      offs.map fun o => (vb, o.1) := by
  induction offs with
  | nil => intro i; rfl
  | cons o rest ih =>
      intro i
      obtain ⟨vo, io, n⟩ := o
      simp [renderLoop, vertexBinds] at ih ⊢
      exact ih (i + 1)

theorem renderLoop_silent (p : RenderPipeline) (c : BindGroup)
    (vb ib : Nat) (bounds : Rect) (offs : List (Nat × Nat × Nat)) :
    ∀ i, copyOps (renderLoop p c vb ib bounds i offs) = [] ∧
      passBegins (renderLoop p c vb ib bounds i offs) = [] ∧
      blitCount (renderLoop p c vb ib bounds i offs) = 0 := by
  induction offs with
  | nil => intro i; simp [renderLoop, copyOps, passBegins, blitCount]
  | cons o rest ih =>
      intro i
      obtain ⟨vo, io, n⟩ := o
      obtain ⟨h1, h2, h3⟩ := ih (i + 1)
      simp [renderLoop, copyOps, passBegins, blitCount] at h1 h2 h3 ⊢
      exact ⟨h1, h2, h3⟩

theorem offsetsSpec_length (meshes : List (Point × Mesh2D)) :
    ∀ lv li, (offsetsSpec lv li meshes).length = meshes.length := by
  induction meshes with
  | nil => intro lv li; rfl
  | cons pm rest ih =>
      intro lv li
      obtain ⟨origin, mesh⟩ := pm
      simp [offsetsSpec, ih]

theorem offsetsSpec_get (meshes : List (Point × Mesh2D)) :
    ∀ lv li i, i < meshes.length →
      (offsetsSpec lv li meshes).get? i =
        some (lv + totalV (meshes.take i), li + totalI (meshes.take i),
          ((meshes.get? i).map fun pm => pm.2.indices.length).getD 0) := by
  induction meshes with
  | nil => intro lv li i h; simp at h
  | cons pm rest ih =>
      intro lv li i h
      obtain ⟨origin, mesh⟩ := pm
      cases i with
      | zero => simp [offsetsSpec, totalV, totalI]
      | succ i =>
          simp only [offsetsSpec, List.get?_cons_succ, List.take_succ_cons]
          rw [ih _ _ i (by simpa using h)]
          simp [totalV, totalI]
          constructor <;> ring

theorem offsetsSpec_indexCount_sum (meshes : List (Point × Mesh2D)) :
    ∀ lv li, ((offsetsSpec lv li meshes).map fun o => o.2.2).sum =
      totalI meshes := by
  induction meshes with
  | nil => intro lv li; simp [offsetsSpec, totalI]
  | cons pm rest ih =>
      intro lv li
      obtain ⟨origin, mesh⟩ := pm
      simp [offsetsSpec, totalI, ih]

theorem bindOffsetsSpec_get (n : Nat) :
    ∀ i k, k < n → (bindOffsetsSpec i n).get? k =
      some (sizeOfUniforms * (i + k)) := by
  induction n with
  | zero => intro i k h; simp at h
  | succ n ih =>
      intro i k h
      cases k with
      | zero => simp [bindOffsetsSpec]
      | succ k =>
          simp only [bindOffsetsSpec, List.get?_cons_succ]
          rw [ih (i + 1) k (by omega)]
          congr 2
          omega

@[simp]
theorem copyOps_append (a b : List Command) :
    copyOps (a ++ b) = copyOps a ++ copyOps b := by
  simp [copyOps]

@[simp]
theorem copyOps_cons_copy (s so d dOff n : Nat) (cs : List Command) :
    copyOps (Command.copyBufferToBuffer s so d dOff n :: cs) =
      (d, dOff, n) :: copyOps cs := rfl

@[simp]
theorem copyOps_cons_pass (a : AttachmentKind) (r : Option AttachmentKind)
    (l : LoadOp) (cs : List Command) :
    copyOps (Command.beginRenderPass a r l :: cs) = copyOps cs := rfl

@[simp]
theorem copyOps_cons_blit (cs : List Command) :
    copyOps (Command.blitDraw :: cs) = copyOps cs := rfl

@[simp]
theorem copyOps_nil : copyOps [] = [] := rfl

@[simp]
theorem drawCalls_append (a b : List Command) :
    drawCalls (a ++ b) = drawCalls a ++ drawCalls b := by
  simp [drawCalls]

@[simp]
theorem drawCalls_cons_copy (s so d dOff n : Nat) (cs : List Command) :
    drawCalls (Command.copyBufferToBuffer s so d dOff n :: cs) =
      drawCalls cs := rfl

@[simp]
theorem drawCalls_cons_pass (a : AttachmentKind) (r : Option AttachmentKind)
    (l : LoadOp) (cs : List Command) :
    drawCalls (Command.beginRenderPass a r l :: cs) = drawCalls cs := rfl

@[simp]
theorem drawCalls_cons_blit (cs : List Command) :
    drawCalls (Command.blitDraw :: cs) = drawCalls cs := rfl

@[simp]
theorem drawCalls_nil : drawCalls [] = [] := rfl

@[simp]
theorem bindGroupBinds_append (a b : List Command) :
    bindGroupBinds (a ++ b) = bindGroupBinds a ++ bindGroupBinds b := by
  simp [bindGroupBinds]

@[simp]
theorem bindGroupBinds_cons_copy (s so d dOff n : Nat) (cs : List Command) :
    bindGroupBinds (Command.copyBufferToBuffer s so d dOff n :: cs) =
      bindGroupBinds cs := rfl

@[simp]
theorem bindGroupBinds_cons_pass (a : AttachmentKind)
    (r : Option AttachmentKind) (l : LoadOp) (cs : List Command) :
    bindGroupBinds (Command.beginRenderPass a r l :: cs) =
      bindGroupBinds cs := rfl

@[simp]
theorem bindGroupBinds_cons_blit (cs : List Command) :
    bindGroupBinds (Command.blitDraw :: cs) = bindGroupBinds cs := rfl

@[simp]
theorem bindGroupBinds_nil : bindGroupBinds [] = [] := rfl

@[simp]
theorem indexBinds_append (a b : List Command) :
    indexBinds (a ++ b) = indexBinds a ++ indexBinds b := by
  simp [indexBinds]

@[simp]
theorem indexBinds_cons_copy (s so d dOff n : Nat) (cs : List Command) :
    indexBinds (Command.copyBufferToBuffer s so d dOff n :: cs) =
      indexBinds cs := rfl

@[simp]
theorem indexBinds_cons_pass (a : AttachmentKind) (r : Option AttachmentKind)
    (l : LoadOp) (cs : List Command) :
    indexBinds (Command.beginRenderPass a r l :: cs) = indexBinds cs := rfl

@[simp]
theorem indexBinds_cons_blit (cs : List Command) :
    indexBinds (Command.blitDraw :: cs) = indexBinds cs := rfl

@[simp]
theorem indexBinds_nil : indexBinds [] = [] := rfl

@[simp]
theorem vertexBinds_append (a b : List Command) :
    vertexBinds (a ++ b) = vertexBinds a ++ vertexBinds b := by
  simp [vertexBinds]

@[simp]
theorem vertexBinds_cons_copy (s so d dOff n : Nat) (cs : List Command) :
    vertexBinds (Command.copyBufferToBuffer s so d dOff n :: cs) =
      vertexBinds cs := rfl

@[simp]
theorem vertexBinds_cons_pass (a : AttachmentKind)
    (r : Option AttachmentKind) (l : LoadOp) (cs : List Command) :
    vertexBinds (Command.beginRenderPass a r l :: cs) = vertexBinds cs := rfl

@[simp]
theorem vertexBinds_cons_blit (cs : List Command) :
    vertexBinds (Command.blitDraw :: cs) = vertexBinds cs := rfl

@[simp]
theorem vertexBinds_nil : vertexBinds [] = [] := rfl

@[simp]
theorem passBegins_append (a b : List Command) :
    passBegins (a ++ b) = passBegins a ++ passBegins b := by
  simp [passBegins]

@[simp]
theorem passBegins_cons_copy (s so d dOff n : Nat) (cs : List Command) :
    passBegins (Command.copyBufferToBuffer s so d dOff n :: cs) =
      passBegins cs := rfl

@[simp]
theorem passBegins_cons_pass (a : AttachmentKind) (r : Option AttachmentKind)
    (l : LoadOp) (cs : List Command) :
    passBegins (Command.beginRenderPass a r l :: cs) =
      (a, r, l) :: passBegins cs := rfl

@[simp]
theorem passBegins_cons_blit (cs : List Command) :
    passBegins (Command.blitDraw :: cs) = passBegins cs := rfl

@[simp]
theorem passBegins_nil : passBegins [] = [] := rfl

@[simp]
theorem blitCount_append (a b : List Command) :
    blitCount (a ++ b) = blitCount a + blitCount b := by
  simp [blitCount, List.countP_append]

@[simp]
theorem blitCount_cons_copy (s so d dOff n : Nat) (cs : List Command) :
    blitCount (Command.copyBufferToBuffer s so d dOff n :: cs) =
      blitCount cs := by
  simp [blitCount, List.countP_cons]

@[simp]
theorem blitCount_cons_pass (a : AttachmentKind) (r : Option AttachmentKind)
    (l : LoadOp) (cs : List Command) :
    blitCount (Command.beginRenderPass a r l :: cs) = blitCount cs := by
  simp [blitCount, List.countP_cons]

@[simp]
theorem blitCount_cons_blit (cs : List Command) :
    blitCount (Command.blitDraw :: cs) = blitCount cs + 1 := by
  simp [blitCount, List.countP_cons]

@[simp]
theorem blitCount_nil : blitCount [] = 0 := rfl

theorem offsetsSpec_map_draw (meshes : List (Point × Mesh2D)) :
    ∀ lv li, ((offsetsSpec lv li meshes).map fun o => (o.2.2, 0, 1)) =
      meshes.map fun pm => (pm.2.indices.length, 0, 1) := by
  induction meshes with
  | nil => intro lv li; rfl
  | cons pm rest ih =>
      intro lv li
      obtain ⟨origin, mesh⟩ := pm
      simp [offsetsSpec, ih]

theorem draw_pipeline_eq (self : Pipeline) (d : Device) (t : AttachmentKind)
    (w h : Nat) (tr : Transformation) (meshes : List (Point × Mesh2D))
    (bounds : Rect) :
    (self.draw d t w h tr meshes bounds).pipeline =
      { self with
        uniforms_buffer :=
          (self.uniforms_buffer.ensure_capacity d meshes.length).1,
        vertex_buffer :=
          (self.vertex_buffer.ensure_capacity
            (self.uniforms_buffer.ensure_capacity d meshes.length).2
            (totalV meshes)).1,
        index_buffer :=
          (self.index_buffer.ensure_capacity
            (self.vertex_buffer.ensure_capacity
              (self.uniforms_buffer.ensure_capacity d meshes.length).2
              (totalV meshes)).2
            (totalI meshes)).1 } := by
  simp only [Pipeline.draw, totals_foldl, Nat.zero_add]

@[simp]
theorem renderLoop_copyOps (p : RenderPipeline) (c : BindGroup) (vb ib : Nat)
    (bounds : Rect) (offs : List (Nat × Nat × Nat)) (i : Nat) :
    copyOps (renderLoop p c vb ib bounds i offs) = [] :=
  (renderLoop_silent p c vb ib bounds offs i).1

@[simp]
theorem renderLoop_passBegins (p : RenderPipeline) (c : BindGroup)
    (vb ib : Nat) (bounds : Rect) (offs : List (Nat × Nat × Nat)) (i : Nat) :
    passBegins (renderLoop p c vb ib bounds i offs) = [] :=
  (renderLoop_silent p c vb ib bounds offs i).2.1

@[simp]
theorem renderLoop_blitCount (p : RenderPipeline) (c : BindGroup)
    (vb ib : Nat) (bounds : Rect) (offs : List (Nat × Nat × Nat)) (i : Nat) :
    blitCount (renderLoop p c vb ib bounds i offs) = 0 :=
  (renderLoop_silent p c vb ib bounds offs i).2.2

@[simp]
theorem uploadLoop_drawCalls (t : Transformation) (vb ib : Nat)
    (d : Device) (lv li : Nat) (meshes : List (Point × Mesh2D)) :
    drawCalls (uploadLoop t vb ib d lv li meshes).cmds = [] :=
  (uploadLoop_no_draws t vb ib meshes d lv li).1

@[simp]
theorem uploadLoop_bindGroupBinds (t : Transformation) (vb ib : Nat)
    (d : Device) (lv li : Nat) (meshes : List (Point × Mesh2D)) :
    bindGroupBinds (uploadLoop t vb ib d lv li meshes).cmds = [] :=
  (uploadLoop_no_draws t vb ib meshes d lv li).2.1

@[simp]
theorem uploadLoop_indexBinds (t : Transformation) (vb ib : Nat)
    (d : Device) (lv li : Nat) (meshes : List (Point × Mesh2D)) :
    indexBinds (uploadLoop t vb ib d lv li meshes).cmds = [] :=
  (uploadLoop_no_draws t vb ib meshes d lv li).2.2.1

@[simp]
theorem uploadLoop_vertexBinds (t : Transformation) (vb ib : Nat)
    (d : Device) (lv li : Nat) (meshes : List (Point × Mesh2D)) :
    vertexBinds (uploadLoop t vb ib d lv li meshes).cmds = [] :=
  (uploadLoop_no_draws t vb ib meshes d lv li).2.2.2.1

@[simp]
theorem uploadLoop_passBegins (t : Transformation) (vb ib : Nat)
    (d : Device) (lv li : Nat) (meshes : List (Point × Mesh2D)) :
    passBegins (uploadLoop t vb ib d lv li meshes).cmds = [] :=
  (uploadLoop_no_draws t vb ib meshes d lv li).2.2.2.2.1

@[simp]
theorem uploadLoop_blitCount (t : Transformation) (vb ib : Nat)
    (d : Device) (lv li : Nat) (meshes : List (Point × Mesh2D)) :
    blitCount (uploadLoop t vb ib d lv li meshes).cmds = 0 :=
  (uploadLoop_no_draws t vb ib meshes d lv li).2.2.2.2.2

@[simp]
theorem uploadLoop_uniforms_length (t : Transformation) (vb ib : Nat)
    (d : Device) (lv li : Nat) (meshes : List (Point × Mesh2D)) :
    (uploadLoop t vb ib d lv li meshes).uniforms.length = meshes.length := by
  rw [uploadLoop_uniforms]
  exact List.length_map _ _

theorem totals_foldl_zero (meshes : List (Point × Mesh2D)) :
    ((meshes.map fun pm =>
      (pm.2.vertices.length, pm.2.indices.length)).foldl
        (fun t vi => (t.1 + vi.1, t.2 + vi.2)) (0 : Nat × Nat)) =
      (totalV meshes, totalI meshes) := by
  rw [show (0 : Nat × Nat) = ((0 : Nat), (0 : Nat)) from rfl, totals_foldl]
  simp

theorem draw_copyOps (self : Pipeline) (d : Device) (t : AttachmentKind)
    (w h : Nat) (tr : Transformation) (meshes : List (Point × Mesh2D))
    (bounds : Rect) :
    copyOps (self.draw d t w h tr meshes bounds).cmds =
      copiesSpec
        (self.vertex_buffer.ensure_capacity
          (self.uniforms_buffer.ensure_capacity d meshes.length).2
          (totalV meshes)).1.raw
        (self.index_buffer.ensure_capacity
          (self.vertex_buffer.ensure_capacity
            (self.uniforms_buffer.ensure_capacity d meshes.length).2
            (totalV meshes)).2
          (totalI meshes)).1.raw
        0 0 meshes ++
      [((self.uniforms_buffer.ensure_capacity d meshes.length).1.raw, 0,
        sizeOfUniforms * meshes.length)] := by
  cases hb : self.blit <;>
    simp [Pipeline.draw, totals_foldl, totals_foldl_zero, hb, uploadLoop_copyOps]

theorem draw_drawCalls (self : Pipeline) (d : Device) (t : AttachmentKind)
    (w h : Nat) (tr : Transformation) (meshes : List (Point × Mesh2D))
    (bounds : Rect) :
    drawCalls (self.draw d t w h tr meshes bounds).cmds =
      meshes.map fun pm => (pm.2.indices.length, 0, 1) := by
  cases hb : self.blit <;>
    simp [Pipeline.draw, totals_foldl, totals_foldl_zero, hb, renderLoop_drawCalls,
      uploadLoop_offsets, offsetsSpec_map_draw]

theorem draw_bindGroupBinds (self : Pipeline) (d : Device)
    (t : AttachmentKind) (w h : Nat) (tr : Transformation)
    (meshes : List (Point × Mesh2D)) (bounds : Rect) :
    bindGroupBinds (self.draw d t w h tr meshes bounds).cmds =
      (bindOffsetsSpec 0 meshes.length).map fun off =>
        (self.constants, off) := by
  cases hb : self.blit <;>
    simp [Pipeline.draw, totals_foldl, totals_foldl_zero, hb, renderLoop_bindGroupBinds,
      uploadLoop_offsets, offsetsSpec_length]

theorem draw_indexBinds (self : Pipeline) (d : Device) (t : AttachmentKind)
    (w h : Nat) (tr : Transformation) (meshes : List (Point × Mesh2D))
    (bounds : Rect) :
    indexBinds (self.draw d t w h tr meshes bounds).cmds =
      (offsetsSpec 0 0 meshes).map fun o =>
        ((self.index_buffer.ensure_capacity
          (self.vertex_buffer.ensure_capacity
            (self.uniforms_buffer.ensure_capacity d meshes.length).2
            (totalV meshes)).2
          (totalI meshes)).1.raw, o.2.1) := by
  cases hb : self.blit <;>
    simp [Pipeline.draw, totals_foldl, totals_foldl_zero, hb, renderLoop_indexBinds,
      uploadLoop_offsets]

theorem draw_vertexBinds (self : Pipeline) (d : Device) (t : AttachmentKind)
    (w h : Nat) (tr : Transformation) (meshes : List (Point × Mesh2D))
    (bounds : Rect) :
    vertexBinds (self.draw d t w h tr meshes bounds).cmds =
      (offsetsSpec 0 0 meshes).map fun o =>
        ((self.vertex_buffer.ensure_capacity
          (self.uniforms_buffer.ensure_capacity d meshes.length).2
          (totalV meshes)).1.raw, o.1) := by
  cases hb : self.blit <;>
    simp [Pipeline.draw, totals_foldl, totals_foldl_zero, hb, renderLoop_vertexBinds,
      uploadLoop_offsets]

theorem draw_passBegins_none (self : Pipeline) (d : Device)
    (t : AttachmentKind) (w h : Nat) (tr : Transformation)
    (meshes : List (Point × Mesh2D)) (bounds : Rect)
    (hb : self.blit = none) :
    passBegins (self.draw d t w h tr meshes bounds).cmds =
      [(t, none, LoadOp.load)] ∧
    blitCount (self.draw d t w h tr meshes bounds).cmds = 0 := by
  constructor <;> simp [Pipeline.draw, totals_foldl, totals_foldl_zero, hb]

theorem draw_passBegins_some (self : Pipeline) (d : Device)
    (t : AttachmentKind) (w h : Nat) (tr : Transformation)
    (meshes : List (Point × Mesh2D)) (bounds : Rect) (b : Blit)
    (hb : self.blit = some b) :
    passBegins (self.draw d t w h tr meshes bounds).cmds =
      [(AttachmentKind.blitOffscreen, some AttachmentKind.blitResolve,
        LoadOp.clear)] ∧
    blitCount (self.draw d t w h tr meshes bounds).cmds = 1 := by
  constructor <;> simp [Pipeline.draw, totals_foldl, totals_foldl_zero, hb, Blit.targets]

/-- A sample vertex used in concrete instantiations. -/
def sampleVertex : Vertex2D := { position := (0, 0), color := (1, 0, 0, 1) }

/-- A sample triangle mesh: three vertices, indices `[0, 1, 2]`. -/
def sampleMesh : Mesh2D :=
  { vertices := [sampleVertex, sampleVertex, sampleVertex],
    indices := [0, 1, 2] }

/-- The pipeline built on a fresh device without antialiasing: the uniform
buffer gets allocation id 0, the vertex buffer id 1, the index buffer id 2. -/
def samplePipeline : Pipeline :=
  (Pipeline.new 0 TextureFormat.bgra8UnormSrgb none).1

/-- The device counter right after building `samplePipeline`. -/
def sampleDevice : Device :=
  (Pipeline.new 0 TextureFormat.bgra8UnormSrgb none).2

/-- The pipeline built on a fresh device with 4x antialiasing. -/
def samplePipelineMSAA : Pipeline :=
  (Pipeline.new 0 TextureFormat.bgra8UnormSrgb
    (some { sample_count := 4 })).1

/-- The device counter right after building `samplePipelineMSAA`. -/
def sampleDeviceMSAA : Device :=
  (Pipeline.new 0 TextureFormat.bgra8UnormSrgb
    (some { sample_count := 4 })).2

/-- A clip rectangle covering an 800x600 target. -/
def sampleBounds : Rect := { x := 0, y := 0, width := 800, height := 600 }

/-- The end-to-end scenario mesh: vertices `(0,0)` red, `(1,0)` green,
`(0,1)` blue, indices `[0, 1, 2]`. -/
def scenarioMesh : Mesh2D :=
  { vertices :=
      [{ position := (0, 0), color := (1, 0, 0, 1) },
       { position := (1, 0), color := (0, 1, 0, 1) },
       { position := (0, 1), color := (0, 0, 1, 1) }],
    indices := [0, 1, 2] }

/-- Claim C1 (code divergence, evaluated at the failing input): drawing two
meshes of 3 vertices / 3 indices each, the second item's vertex copy is
scheduled at destination byte offset 3 — the raw element count `last_vertex`
— rather than 3 * 24 = 72 as the byte-offset bookkeeping requires, and its
index copy at byte offset 3 rather than 3 * 4 = 12; the same element-count
values are used to bind the vertex buffer for the second draw call.
The copy byte counts (72, 12) are correctly scaled, so the scheduled copies
overlap: bytes 3..75 of the vertex buffer overwrite bytes 0..72. -/
theorem C1_copy_offsets_are_element_counts :
    copyOps (samplePipeline.draw sampleDevice AttachmentKind.callerTarget
      800 600 Transformation.matIdentity
      [({ x := 0, y := 0 }, sampleMesh), ({ x := 0, y := 0 }, sampleMesh)]
      sampleBounds).cmds =
      [(1, 0, 72), (2, 0, 12), (1, 3, 72), (2, 3, 12), (0, 0, 128)] ∧
    vertexBinds (samplePipeline.draw sampleDevice AttachmentKind.callerTarget
      800 600 Transformation.matIdentity
      [({ x := 0, y := 0 }, sampleMesh), ({ x := 0, y := 0 }, sampleMesh)]
      sampleBounds).cmds = [(1, 0), (1, 3)] ∧
    indexBinds (samplePipeline.draw sampleDevice AttachmentKind.callerTarget
      800 600 Transformation.matIdentity
      [({ x := 0, y := 0 }, sampleMesh), ({ x := 0, y := 0 }, sampleMesh)]
      sampleBounds).cmds = [(2, 0), (2, 3)] ∧
    (3 : Nat) ≠ sizeOfVertex2D * 3 ∧ (3 : Nat) ≠ sizeOfU32 * 3 := by
  decide

/-- Claim C2: `draw` computes the totals as the sums of the per-mesh vertex
and index counts, resizes each buffer exactly once with `meshes.length` /
total vertices / total indices, the upload loop's final running counts equal
those totals, and the recorded `indexCount` fields sum to the total index
count. -/
theorem C2_totals (self : Pipeline) (d : Device) (t : AttachmentKind)
    (w h : Nat) (tr : Transformation) (meshes : List (Point × Mesh2D))
    (bounds : Rect) (vb ib : Nat) (dev : Device) :
    ((meshes.map fun pm => (pm.2.vertices.length, pm.2.indices.length)).foldl
      (fun t vi => (t.1 + vi.1, t.2 + vi.2)) (0, 0)) =
      (totalV meshes, totalI meshes) ∧
    (self.draw d t w h tr meshes bounds).pipeline.uniforms_buffer =
      (self.uniforms_buffer.ensure_capacity d meshes.length).1 ∧
    (self.draw d t w h tr meshes bounds).pipeline.vertex_buffer =
      (self.vertex_buffer.ensure_capacity
        (self.uniforms_buffer.ensure_capacity d meshes.length).2
        (totalV meshes)).1 ∧
    (self.draw d t w h tr meshes bounds).pipeline.index_buffer =
      (self.index_buffer.ensure_capacity
        (self.vertex_buffer.ensure_capacity
          (self.uniforms_buffer.ensure_capacity d meshes.length).2
          (totalV meshes)).2
        (totalI meshes)).1 ∧
    (uploadLoop tr vb ib dev 0 0 meshes).last_vertex = totalV meshes ∧
    (uploadLoop tr vb ib dev 0 0 meshes).last_index = totalI meshes ∧
    ((uploadLoop tr vb ib dev 0 0 meshes).offsets.map fun o => o.2.2).sum =
      totalI meshes := by
  refine ⟨by rw [totals_foldl]; simp, ?_, ?_, ?_, ?_, ?_, ?_⟩
  · rw [draw_pipeline_eq]
  · rw [draw_pipeline_eq]
  · rw [draw_pipeline_eq]
  · rw [(uploadLoop_last tr vb ib meshes dev 0 0).1]; omega
  · rw [(uploadLoop_last tr vb ib meshes dev 0 0).2]; omega
  · rw [uploadLoop_offsets, offsetsSpec_indexCount_sum]

/-- Claim C3: after `ensure_capacity(n)` the capacity equals
`max previous n` — a no-op when previous capacity ≥ n, a reallocation to
exactly `n` elements otherwise; `ensure_capacity(n)` followed by
`ensure_capacity(m)` with `m ≤ n` leaves the buffer unchanged; capacity is
monotonically non-decreasing across any sequence of requests. -/
theorem C3_ensure_capacity (b : Buffer) (d : Device) (n m : Nat) :
    (b.ensure_capacity d n).1.size = max b.size n ∧
    (n ≤ b.size → b.ensure_capacity d n = (b, d)) ∧
    (b.size < n → (b.ensure_capacity d n).1.size = n) ∧
    (m ≤ n →
      ((b.ensure_capacity d n).1.ensure_capacity
        (b.ensure_capacity d n).2 m).1 = (b.ensure_capacity d n).1) ∧
    ∀ ns : List Nat, b.size ≤ (ensureFold (b, d) ns).1.size := by
  refine ⟨ensure_capacity_size b d n, ensure_capacity_noop b d n, ?_, ?_, ?_⟩
  · intro h; rw [ensure_capacity_size]; omega
  · intro hmn
    have hsz : m ≤ (b.ensure_capacity d n).1.size := by
      rw [ensure_capacity_size]; omega
    rw [ensure_capacity_noop _ _ _ hsz]
  · intro ns; exact ensureFold_size_le ns (b, d)

/-- Witness for C3 at a concrete buffer of capacity 2 with n = 5, m = 3. -/
theorem C3_ensure_capacity_witness :
    ((Buffer.mk 4 0 2 BufferUsage.copySrc).ensure_capacity 7 5).1.size = 5 ∧
    (((Buffer.mk 4 0 2 BufferUsage.copySrc).ensure_capacity 7 5).1.ensure_capacity
      ((Buffer.mk 4 0 2 BufferUsage.copySrc).ensure_capacity 7 5).2 3).1 =
      ((Buffer.mk 4 0 2 BufferUsage.copySrc).ensure_capacity 7 5).1 := by
  obtain ⟨h1, _h2, _h3, h4, _h5⟩ :=
    C3_ensure_capacity (Buffer.mk 4 0 2 BufferUsage.copySrc) 7 5 3
  exact ⟨by rw [h1]; decide, h4 (by decide)⟩

/-- Claim C4: the dynamic byte offset passed when binding the uniform group
for the i-th draw call (in list order) is exactly
`i * size_of::<Uniforms>() = i * 64`, and the group bound is the constants
bind group. -/
theorem C4_dynamic_offsets (self : Pipeline) (d : Device) (t : AttachmentKind)
    (w h : Nat) (tr : Transformation) (meshes : List (Point × Mesh2D))
    (bounds : Rect) (i : Nat) (hi : i < meshes.length) :
    (bindGroupBinds (self.draw d t w h tr meshes bounds).cmds).get? i =
      some (self.constants, sizeOfUniforms * i) := by
  rw [draw_bindGroupBinds, List.get?_map,
    bindOffsetsSpec_get meshes.length 0 i hi]
  simp

/-- Witness for C4: one mesh, i = 0, dynamic offset 64 * 0 = 0. -/
theorem C4_dynamic_offsets_witness :
    (0 : Nat) < ([({ x := 10, y := 20 }, sampleMesh)] :
      List (Point × Mesh2D)).length ∧
    (bindGroupBinds (samplePipeline.draw sampleDevice
      AttachmentKind.callerTarget 800 600 Transformation.matIdentity
      [({ x := 10, y := 20 }, sampleMesh)] sampleBounds).cmds).get? 0 =
      some (samplePipeline.constants, sizeOfUniforms * 0) :=
  ⟨by decide,
   C4_dynamic_offsets samplePipeline sampleDevice AttachmentKind.callerTarget
     800 600 Transformation.matIdentity [({ x := 10, y := 20 }, sampleMesh)]
     sampleBounds 0 (by decide)⟩

/-- Claim C5: `None` antialiasing yields sample count 1, no blit resolver,
rendering straight into the caller target with a content-preserving load
and no resolve invocation; `Some` with sample count s yields pipeline
sample count s, a blit resolver, a cleared offscreen attachment with a
resolve target, and exactly one resolver invocation per draw call. -/
theorem C5_antialiasing (d : Device) (fmt : TextureFormat) (a : Antialiasing)
    (self : Pipeline) (dd : Device) (t : AttachmentKind) (w h : Nat)
    (tr : Transformation) (meshes : List (Point × Mesh2D)) (bounds : Rect)
    (b : Blit) :
    (Pipeline.new d fmt none).1.pipeline.sample_count = 1 ∧
    (Pipeline.new d fmt none).1.blit = none ∧
    (Pipeline.new d fmt (some a)).1.pipeline.sample_count = a.sample_count ∧
    (Pipeline.new d fmt (some a)).1.blit.isSome = true ∧
    (self.blit = none →
      passBegins (self.draw dd t w h tr meshes bounds).cmds =
        [(t, none, LoadOp.load)] ∧
      blitCount (self.draw dd t w h tr meshes bounds).cmds = 0) ∧
    (self.blit = some b →
      passBegins (self.draw dd t w h tr meshes bounds).cmds =
        [(AttachmentKind.blitOffscreen, some AttachmentKind.blitResolve,
          LoadOp.clear)] ∧
      blitCount (self.draw dd t w h tr meshes bounds).cmds = 1) := by
  refine ⟨?_, ?_, ?_, ?_, ?_, ?_⟩
  · simp [Pipeline.new, Buffer.new, Device.create_buffer]
  · simp [Pipeline.new, Buffer.new, Device.create_buffer]
  · simp [Pipeline.new, Buffer.new, Device.create_buffer]
  · simp [Pipeline.new, Buffer.new, Device.create_buffer]
  · intro hb; exact draw_passBegins_none self dd t w h tr meshes bounds hb
  · intro hb; exact draw_passBegins_some self dd t w h tr meshes bounds b hb

/-- Witness for C5: the direct pipeline draws into the caller target with a
load (no resolve), the 4x pipeline clears the offscreen attachment and
resolves exactly once. -/
theorem C5_antialiasing_witness :
    passBegins (samplePipeline.draw sampleDevice AttachmentKind.callerTarget
      800 600 Transformation.matIdentity [({ x := 0, y := 0 }, sampleMesh)]
      sampleBounds).cmds =
      [(AttachmentKind.callerTarget, none, LoadOp.load)] ∧
    blitCount (samplePipeline.draw sampleDevice AttachmentKind.callerTarget
      800 600 Transformation.matIdentity [({ x := 0, y := 0 }, sampleMesh)]
      sampleBounds).cmds = 0 ∧
    passBegins (samplePipelineMSAA.draw sampleDeviceMSAA
      AttachmentKind.callerTarget 800 600 Transformation.matIdentity
      [({ x := 0, y := 0 }, sampleMesh)] sampleBounds).cmds =
      [(AttachmentKind.blitOffscreen, some AttachmentKind.blitResolve,
        LoadOp.clear)] ∧
    blitCount (samplePipelineMSAA.draw sampleDeviceMSAA
      AttachmentKind.callerTarget 800 600 Transformation.matIdentity
      [({ x := 0, y := 0 }, sampleMesh)] sampleBounds).cmds = 1 := by
  obtain ⟨-, -, -, -, hnone, -⟩ :=
    C5_antialiasing 0 TextureFormat.bgra8UnormSrgb { sample_count := 4 }
      samplePipeline sampleDevice AttachmentKind.callerTarget 800 600
      Transformation.matIdentity [({ x := 0, y := 0 }, sampleMesh)]
      sampleBounds (Blit.new 0 TextureFormat.bgra8UnormSrgb
        { sample_count := 4 })
  obtain ⟨-, -, -, -, -, hsome⟩ :=
    C5_antialiasing 0 TextureFormat.bgra8UnormSrgb { sample_count := 4 }
      samplePipelineMSAA sampleDeviceMSAA AttachmentKind.callerTarget 800 600
      Transformation.matIdentity [({ x := 0, y := 0 }, sampleMesh)]
      sampleBounds (Blit.new 0 TextureFormat.bgra8UnormSrgb
        { sample_count := 4 })
  obtain ⟨p1, p2⟩ := hnone (by decide)
  obtain ⟨p3, p4⟩ := hsome (by decide)
  exact ⟨p1, p2, p3, p4⟩

/-- Claim C6: copies and draws are issued strictly in input list order with
no reordering, merging or skipping: the upload loop's copy stream is exactly
the per-item vertex/index copy pairs in list order, the full copy stream of
`draw` appends only the single combined uniforms upload, and the indexed
draw calls are exactly one per item in list order with the item's index
count. -/
theorem C6_list_order (self : Pipeline) (d : Device) (t : AttachmentKind)
    (w h : Nat) (tr : Transformation) (meshes : List (Point × Mesh2D))
    (bounds : Rect) (vb ib : Nat) (dev : Device) :
    copyOps (uploadLoop tr vb ib dev 0 0 meshes).cmds =
      copiesSpec vb ib 0 0 meshes ∧
    copyOps (self.draw d t w h tr meshes bounds).cmds =
      copiesSpec
        (self.vertex_buffer.ensure_capacity
          (self.uniforms_buffer.ensure_capacity d meshes.length).2
          (totalV meshes)).1.raw
        (self.index_buffer.ensure_capacity
          (self.vertex_buffer.ensure_capacity
            (self.uniforms_buffer.ensure_capacity d meshes.length).2
            (totalV meshes)).2
          (totalI meshes)).1.raw
        0 0 meshes ++
      [((self.uniforms_buffer.ensure_capacity d meshes.length).1.raw, 0,
        sizeOfUniforms * meshes.length)] ∧
    drawCalls (self.draw d t w h tr meshes bounds).cmds =
      (meshes.map fun pm => (pm.2.indices.length, 0, 1)) ∧
    (drawCalls (self.draw d t w h tr meshes bounds).cmds).length =
      meshes.length := by
  refine ⟨uploadLoop_copyOps tr vb ib meshes dev 0 0,
    draw_copyOps self d t w h tr meshes bounds,
    draw_drawCalls self d t w h tr meshes bounds, ?_⟩
  rw [draw_drawCalls]
  exact List.length_map _ _

/-- Claim C7 counterexample: calling `draw` with an empty item list still
schedules one buffer copy operation — the combined uniform upload is issued
unconditionally (with byte count 0) — so the number of scheduled copies is
1, not 0 as the claim requires. -/
theorem C7_empty_copy_count :
    (copyOps (samplePipeline.draw sampleDevice AttachmentKind.callerTarget
      800 600 Transformation.matIdentity [] sampleBounds).cmds).length = 1 := by
  decide

/-- Claim C7 (amended): with an empty item list, `draw` issues zero draw
calls, zero per-item copies and zero buffer bindings, reads no staged data,
leaves the three buffers unchanged, and schedules exactly one combined
uniform upload copy of zero bytes. -/
theorem C7_empty_draw (self : Pipeline) (d : Device) (t : AttachmentKind)
    (w h : Nat) (tr : Transformation) (bounds : Rect) :
    drawCalls (self.draw d t w h tr [] bounds).cmds = [] ∧
    bindGroupBinds (self.draw d t w h tr [] bounds).cmds = [] ∧
    indexBinds (self.draw d t w h tr [] bounds).cmds = [] ∧
    vertexBinds (self.draw d t w h tr [] bounds).cmds = [] ∧
    copyOps (self.draw d t w h tr [] bounds).cmds =
      [(self.uniforms_buffer.raw, 0, 0)] ∧
    (self.draw d t w h tr [] bounds).pipeline.uniforms_buffer =
      self.uniforms_buffer ∧
    (self.draw d t w h tr [] bounds).pipeline.vertex_buffer =
      self.vertex_buffer ∧
    (self.draw d t w h tr [] bounds).pipeline.index_buffer =
      self.index_buffer := by
  have hu : self.uniforms_buffer.ensure_capacity d 0 =
      (self.uniforms_buffer, d) :=
    ensure_capacity_noop _ _ _ (Nat.zero_le _)
  have hv : self.vertex_buffer.ensure_capacity d 0 =
      (self.vertex_buffer, d) :=
    ensure_capacity_noop _ _ _ (Nat.zero_le _)
  have hi : self.index_buffer.ensure_capacity d 0 =
      (self.index_buffer, d) :=
    ensure_capacity_noop _ _ _ (Nat.zero_le _)
  refine ⟨?_, ?_, ?_, ?_, ?_, ?_, ?_, ?_⟩
  · rw [draw_drawCalls]; rfl
  · rw [draw_bindGroupBinds]; rfl
  · rw [draw_indexBinds]; rfl
  · rw [draw_vertexBinds]; rfl
  · rw [draw_copyOps]
    simp only [List.length_nil, totalV, totalI, List.map_nil, List.sum_nil,
      hu, hv, hi]
    simp [copiesSpec]
  · rw [draw_pipeline_eq]
    simp only [List.length_nil, totalV, totalI, List.map_nil, List.sum_nil,
      hu, hv, hi]
  · rw [draw_pipeline_eq]
    simp only [List.length_nil, totalV, totalI, List.map_nil, List.sum_nil,
      hu, hv, hi]
  · rw [draw_pipeline_eq]
    simp only [List.length_nil, totalV, totalI, List.map_nil, List.sum_nil,
      hu, hv, hi]

/-- Claim C8: every item's stored `Uniforms` entry is the global transform
composed with the translation to the item's origin; the end-to-end scenario
(one mesh `[(0,0,red),(1,0,green),(0,1,blue)]`, indices `[0,1,2]`, origin
`(10,20)`, identity global transform, full-target clip) produces exactly
one indexed draw call of 3 indices, vertex buffer bound at offset 0, index
buffer bound at offset 0, constants bound at dynamic offset 0, and the
single uniform transform equals `translate(10, 20)`. -/
theorem C8_uniform_transforms (tr : Transformation) (vb ib : Nat)
    (dev : Device) (lv li : Nat) (meshes : List (Point × Mesh2D)) :
    (uploadLoop tr vb ib dev lv li meshes).uniforms =
      (meshes.map fun pm =>
        { transform := tr * Transformation.translate pm.1.x pm.1.y }) ∧
    (uploadLoop Transformation.matIdentity vb ib dev 0 0
      [({ x := 10, y := 20 }, scenarioMesh)]).uniforms =
      [{ transform := Transformation.translate 10 20 }] ∧
    drawCalls (samplePipeline.draw sampleDevice AttachmentKind.callerTarget
      800 600 Transformation.matIdentity
      [({ x := 10, y := 20 }, scenarioMesh)] sampleBounds).cmds =
      [(3, 0, 1)] ∧
    vertexBinds (samplePipeline.draw sampleDevice AttachmentKind.callerTarget
      800 600 Transformation.matIdentity
      [({ x := 10, y := 20 }, scenarioMesh)] sampleBounds).cmds =
      [(samplePipeline.vertex_buffer.raw, 0)] ∧
    indexBinds (samplePipeline.draw sampleDevice AttachmentKind.callerTarget
      800 600 Transformation.matIdentity
      [({ x := 10, y := 20 }, scenarioMesh)] sampleBounds).cmds =
      [(samplePipeline.index_buffer.raw, 0)] ∧
    bindGroupBinds (samplePipeline.draw sampleDevice
      AttachmentKind.callerTarget 800 600 Transformation.matIdentity
      [({ x := 10, y := 20 }, scenarioMesh)] sampleBounds).cmds =
      [(samplePipeline.constants, 0)] := by
  refine ⟨uploadLoop_uniforms tr vb ib meshes dev lv li, ?_, ?_, ?_, ?_, ?_⟩
  · rw [uploadLoop_uniforms]
    simp [Transformation.matIdentity]
  · decide
  · decide
  · decide
  · decide

/-- Claim C9: `draw` leaves the render pipeline, the constants bind group
and the blit resolver untouched, and mutates only the three growable
buffers, each exactly by one `ensure_capacity` call (element size and usage
preserved, capacity non-decreasing); the constants bind group built at
construction covers byte range `0..size_of::<Uniforms>()` of the uniform
buffer allocated at that time and is never recreated or rebound. -/
theorem C9_draw_preserves_static_state (self : Pipeline) (d : Device)
    (t : AttachmentKind) (w h : Nat) (tr : Transformation)
    (meshes : List (Point × Mesh2D)) (bounds : Rect) (d2 : Device)
    (fmt : TextureFormat) (aa : Option Antialiasing) :
    (self.draw d t w h tr meshes bounds).pipeline.pipeline = self.pipeline ∧
    (self.draw d t w h tr meshes bounds).pipeline.constants =
      self.constants ∧
    (self.draw d t w h tr meshes bounds).pipeline.blit = self.blit ∧
    (self.draw d t w h tr meshes bounds).pipeline.uniforms_buffer =
      (self.uniforms_buffer.ensure_capacity d meshes.length).1 ∧
    (self.draw d t w h tr meshes bounds).pipeline.vertex_buffer =
      (self.vertex_buffer.ensure_capacity
        (self.uniforms_buffer.ensure_capacity d meshes.length).2
        (totalV meshes)).1 ∧
    (self.draw d t w h tr meshes bounds).pipeline.index_buffer =
      (self.index_buffer.ensure_capacity
        (self.vertex_buffer.ensure_capacity
          (self.uniforms_buffer.ensure_capacity d meshes.length).2
          (totalV meshes)).2
        (totalI meshes)).1 ∧
    (self.draw d t w h tr meshes bounds).pipeline.uniforms_buffer.elemSize =
      self.uniforms_buffer.elemSize ∧
    (self.draw d t w h tr meshes bounds).pipeline.uniforms_buffer.usage =
      self.uniforms_buffer.usage ∧
    (self.draw d t w h tr meshes bounds).pipeline.vertex_buffer.elemSize =
      self.vertex_buffer.elemSize ∧
    (self.draw d t w h tr meshes bounds).pipeline.vertex_buffer.usage =
      self.vertex_buffer.usage ∧
    (self.draw d t w h tr meshes bounds).pipeline.index_buffer.elemSize =
      self.index_buffer.elemSize ∧
    (self.draw d t w h tr meshes bounds).pipeline.index_buffer.usage =
      self.index_buffer.usage ∧
    self.uniforms_buffer.size ≤
      (self.draw d t w h tr meshes bounds).pipeline.uniforms_buffer.size ∧
    self.vertex_buffer.size ≤
      (self.draw d t w h tr meshes bounds).pipeline.vertex_buffer.size ∧
    self.index_buffer.size ≤
      (self.draw d t w h tr meshes bounds).pipeline.index_buffer.size ∧
    (Pipeline.new d2 fmt aa).1.constants =
      { buffer := (Pipeline.new d2 fmt aa).1.uniforms_buffer.raw,
        rangeEnd := sizeOfUniforms } := by
  rw [draw_pipeline_eq]
  refine ⟨rfl, rfl, rfl, rfl, rfl, rfl, ?_, ?_, ?_, ?_, ?_, ?_, ?_, ?_, ?_,
    ?_⟩
  · exact (ensure_capacity_fields _ _ _).1
  · exact (ensure_capacity_fields _ _ _).2
  · exact (ensure_capacity_fields _ _ _).1
  · exact (ensure_capacity_fields _ _ _).2
  · exact (ensure_capacity_fields _ _ _).1
  · exact (ensure_capacity_fields _ _ _).2
  · exact ensure_capacity_size_le _ _ _
  · exact ensure_capacity_size_le _ _ _
  · exact ensure_capacity_size_le _ _ _
  · simp [Pipeline.new, Buffer.new, Device.create_buffer]

/-- Claim C10: construction creates the three buffers with fixed nonzero
initial capacities 100 / 100,000 / 100,000, and any draw whose item count
and totals stay within the current capacities triggers no reallocation:
all three buffers come out of `draw` unchanged. -/
theorem C10_initial_capacities (d : Device) (fmt : TextureFormat)
    (aa : Option Antialiasing) (self : Pipeline) (dd : Device)
    (t : AttachmentKind) (w h : Nat) (tr : Transformation)
    (meshes : List (Point × Mesh2D)) (bounds : Rect)
    (h1 : meshes.length ≤ self.uniforms_buffer.size)
    (h2 : totalV meshes ≤ self.vertex_buffer.size)
    (h3 : totalI meshes ≤ self.index_buffer.size) :
    (Pipeline.new d fmt aa).1.uniforms_buffer.size = UNIFORM_BUFFER_SIZE ∧
    (Pipeline.new d fmt aa).1.vertex_buffer.size = VERTEX_BUFFER_SIZE ∧
    (Pipeline.new d fmt aa).1.index_buffer.size = INDEX_BUFFER_SIZE ∧
    0 < UNIFORM_BUFFER_SIZE ∧ 0 < VERTEX_BUFFER_SIZE ∧
    0 < INDEX_BUFFER_SIZE ∧
    (self.draw dd t w h tr meshes bounds).pipeline.uniforms_buffer =
      self.uniforms_buffer ∧
    (self.draw dd t w h tr meshes bounds).pipeline.vertex_buffer =
      self.vertex_buffer ∧
    (self.draw dd t w h tr meshes bounds).pipeline.index_buffer =
      self.index_buffer := by
  refine ⟨?_, ?_, ?_, by decide, by decide, by decide, ?_, ?_, ?_⟩
  · simp [Pipeline.new, Buffer.new, Device.create_buffer]
  · simp [Pipeline.new, Buffer.new, Device.create_buffer]
  · simp [Pipeline.new, Buffer.new, Device.create_buffer]
  · rw [draw_pipeline_eq]
    simp [ensure_capacity_noop _ _ _ h1]
  · rw [draw_pipeline_eq]
    simp [ensure_capacity_noop _ _ _ h1, ensure_capacity_noop _ _ _ h2]
  · rw [draw_pipeline_eq]
    simp [ensure_capacity_noop _ _ _ h1, ensure_capacity_noop _ _ _ h2,
      ensure_capacity_noop _ _ _ h3]

/-- Witness for C10: one 3-vertex mesh stays well inside the fresh
capacities, so the first frame reallocates nothing. -/
theorem C10_initial_capacities_witness :
    (samplePipeline.draw sampleDevice AttachmentKind.callerTarget 800 600
      Transformation.matIdentity [({ x := 0, y := 0 }, sampleMesh)]
      sampleBounds).pipeline.uniforms_buffer =
      samplePipeline.uniforms_buffer ∧
    (samplePipeline.draw sampleDevice AttachmentKind.callerTarget 800 600
      Transformation.matIdentity [({ x := 0, y := 0 }, sampleMesh)]
      sampleBounds).pipeline.vertex_buffer = samplePipeline.vertex_buffer ∧
    (samplePipeline.draw sampleDevice AttachmentKind.callerTarget 800 600
      Transformation.matIdentity [({ x := 0, y := 0 }, sampleMesh)]
      sampleBounds).pipeline.index_buffer = samplePipeline.index_buffer := by
  obtain ⟨-, -, -, -, -, -, q1, q2, q3⟩ :=
    C10_initial_capacities 0 TextureFormat.bgra8UnormSrgb none
      samplePipeline sampleDevice AttachmentKind.callerTarget 800 600
      Transformation.matIdentity [({ x := 0, y := 0 }, sampleMesh)]
      sampleBounds (by decide) (by decide) (by decide)
  exact ⟨q1, q2, q3⟩
